import Mathlib

/-!
Shallow embedding of the metasync reconciliation core
(src/metabase/model.py, src/metabase/sync.py, src/metabase/serde.py).

Entities are translated field-for-field from the pydantic models
(datetimes are modelled as strings, `Dict[str, Any]` login attributes as
association lists).  The reconcilers `sync_users` / `sync_groups` are
modelled as functions from the two input collections to the sequence of
observable steps they perform: a printed classification, or a remote
mutation call.  The stray expression `srv.is_equal` on line 20 of
sync.py is modelled faithfully: when `srv` is `None` (a key present only
in the desired collection) the attribute access raises, which the
embedding renders as an `Except.error`.
-/

/-- A Metabase user (src/metabase/model.py, class `User`). -/
structure User where
  id : Int
  email : String
  first_name : String
  last_name : String
  common_name : String
  locale : Option String
  is_superuser : Option Bool
  is_active : Option Bool
  is_qbnewb : Option Bool
  ldap_auth : Option Bool
  google_auth : Option Bool
  login_attributes : List (String × String)
  group_ids : Option (List Int)
  last_login : Option String
  date_joined : Option String
  updated_at : Option String
deriving DecidableEq, Repr

/-- A Metabase permission group (src/metabase/model.py, class `PermissionGroup`). -/
structure PermissionGroup where
  id : Int
  name : String
  member_count : Option Int
deriving DecidableEq, Repr

/-- A Metabase permission membership (src/metabase/model.py, class
`PermissionMembership`); `id` is the aliased `membership_id`. -/
structure PermissionMembership where
  id : Int
  group_id : Int
  user_id : Int
deriving DecidableEq, Repr

/-- Python truthiness of an `Optional[bool]`: `None` and `False` are falsy. -/
def truthy : Option Bool → Bool
  | none => false
  | some b => b

/-- `set(yml.dict(include=diff_fields).items()) - set(srv.dict(include=diff_fields).items())`
is non-empty iff one of the tracked fields `{email, first_name, last_name, is_active}`
differs (both dicts have exactly those keys). -/
def userTrackedDiff (a b : User) : Bool :=
  a.email != b.email || a.first_name != b.first_name ||
    a.last_name != b.last_name || a.is_active != b.is_active

/-- For groups `diff_fields = {"name"}`. -/
def groupTrackedDiff (a b : PermissionGroup) : Bool :=
  a.name != b.name

/-- The four classification buckets printed by the reconcilers. -/
inductive Bucket
  | added
  | removed
  | modified
  | unchanged
deriving DecidableEq, Repr

/-- Remote mutation calls available on `metabase.user`. -/
inductive UAction
  | create (u : User)
  | delete (u : User)
  | reactivate (u : User)
  | update (u : User)
deriving DecidableEq, Repr

/-- One observable step of `sync_users`: a printed classification or a
remote mutation call. -/
inductive UStep
  | classified (key : String) (b : Bucket)
  | mutate (a : UAction)
deriving DecidableEq, Repr

/-- The error message raised by line 20 of sync.py when `srv` is `None`. -/
def attrError : String :=
  "AttributeError: NoneType object has no attribute is_equal"

/-- Loop body of `sync_users` (src/metabase/sync.py lines 17-38) for one
key of the union.  Line 20 (`srv.is_equal`) raises when `srv` is `None`,
i.e. for every key absent from the live collection. -/
def processUserKey (yml_users srv_users : List User) (key : String) :
    Except String (List UStep) :=
  let srv? := srv_users.find? (fun u => u.email == key)
  let yml? := yml_users.find? (fun u => u.email == key)
  match srv? with
  | none => .error attrError
  | some srv =>
    match yml? with
    | some yml =>
      if userTrackedDiff yml srv then
        let yml2 := { yml with id := srv.id }
        if truthy yml2.is_active && !truthy srv.is_active then
          .ok [.classified key .modified, .mutate (.reactivate srv),
               .mutate (.update yml2)]
        else if !truthy yml2.is_active && truthy srv.is_active then
          .ok [.classified key .modified, .mutate (.delete srv)]
        else
          .ok [.classified key .modified, .mutate (.update yml2)]
      else
        .ok []
    | none => .ok [.classified key .removed, .mutate (.delete srv)]

/-- `set(u.email for u in itertools.chain(yml_users, srv_users))`:
the union of natural keys (one fixed enumeration order). -/
def userKeys (yml_users srv_users : List User) : List String :=
  ((yml_users ++ srv_users).map (fun u => u.email)).dedup

/-- Run the `sync_users` loop over a key list, fail-fast: on a raised
exception the steps performed so far are kept and the error recorded. -/
def runUserKeys (yml_users srv_users : List User) :
    List String → List UStep × Option String
  | [] => ([], none)
  | k :: ks =>
    match processUserKey yml_users srv_users k with
    | .error e => ([], some e)
    | .ok steps =>
      let rest := runUserKeys yml_users srv_users ks
      (steps ++ rest.1, rest.2)

/-- `sync_users` (src/metabase/sync.py lines 8-38): observable steps and,
when the run aborts, the raised error. -/
def sync_users (yml_users srv_users : List User) : List UStep × Option String :=
  runUserKeys yml_users srv_users (userKeys yml_users srv_users)

/-- Remote mutation calls on `metabase.permission_group` (all commented
out in the source of `sync_groups`, present in the interface). -/
inductive GAction
  | create (g : PermissionGroup)
  | delete (g : PermissionGroup)
  | update (g : PermissionGroup)
deriving DecidableEq, Repr

/-- One observable step of `sync_groups`. -/
inductive GStep
  | classified (key : String) (b : Bucket)
  | mutate (a : GAction)
deriving DecidableEq, Repr

/-- The natural key a group step refers to. -/
def gstepKey : GStep → String
  | .classified k _ => k
  | .mutate (.create g) => g.name
  | .mutate (.delete g) => g.name
  | .mutate (.update g) => g.name

/-- Whether a group step is a printed classification (as opposed to a
remote mutation). -/
def gstepIsClassified : GStep → Bool
  | .classified _ _ => true
  | .mutate _ => false

/-- `keys - {"All Users", "Administrators"}`: the protection filter of
`sync_groups` (src/metabase/sync.py line 50). -/
def notProtected (k : String) : Bool :=
  !(k == "All Users" || k == "Administrators")

/-- The protected group names. -/
def protectedNames : List String := ["All Users", "Administrators"]

/-- Loop body of `sync_groups` (src/metabase/sync.py lines 51-65) for one
non-protected key: every mutation call is commented out in the source, so
only the print statements remain observable. -/
def processGroupKey (yml_groups srv_groups : List PermissionGroup) (key : String) :
    List GStep :=
  let srv? := srv_groups.find? (fun g => g.name == key)
  let yml? := yml_groups.find? (fun g => g.name == key)
  match srv?, yml? with
  | some srv, some yml =>
    if groupTrackedDiff yml srv then [.classified key .modified] else []
  | some _, none => [.classified key .removed]
  | none, some _ => [.classified key .added]
  | none, none => []

/-- Union of group natural keys. -/
def groupKeys (yml_groups srv_groups : List PermissionGroup) : List String :=
  ((yml_groups ++ srv_groups).map (fun g => g.name)).dedup

/-- `sync_groups` (src/metabase/sync.py lines 41-65): iterates the union
of keys minus the protected names; emits only printed classifications. -/
def sync_groups (yml_groups srv_groups : List PermissionGroup) : List GStep :=
  ((groupKeys yml_groups srv_groups).filter notProtected).flatMap
    (processGroupKey yml_groups srv_groups)

/-- Convenience constructor for test users: only the fields the
reconciler tracks vary, the volatile fields take their pydantic defaults. -/
def mkUser (id : Int) (email first last : String) (active : Option Bool) : User :=
  { id := id, email := email, first_name := first, last_name := last,
    common_name := first ++ " " ++ last, locale := none, is_superuser := none,
    is_active := active, is_qbnewb := none, ldap_auth := none,
    google_auth := none, login_attributes := [], group_ids := none,
    last_login := none, date_joined := none, updated_at := none }

/-- Portable user record: exactly the fields `serialize_users` does not
exclude (src/metabase/serde.py lines 17-43). -/
structure PortableUser where
  email : String
  first_name : String
  last_name : String
  is_active : Option Bool
deriving DecidableEq, Repr

/-- Portable group record: exactly the fields `serialize_groups` does not
exclude (src/metabase/serde.py lines 59-67). -/
structure PortableGroup where
  name : String
deriving DecidableEq, Repr

/-- `serialize_users`: dump each user minus identity and volatile fields. -/
def serialize_users (users : List User) : List PortableUser :=
  users.map (fun u =>
    { email := u.email, first_name := u.first_name,
      last_name := u.last_name, is_active := u.is_active })

/-- The pydantic validator `set_common_name`: Python `v or first + " " + last`
(an empty string is falsy). -/
def set_common_name (v first last : String) : String :=
  if v == "" then first ++ " " ++ last else v

/-- `deserialize_users` (src/metabase/serde.py lines 46-56): rebuild a full
`User` with the sentinel identity `-1`, a recomputed `common_name`, and
pydantic defaults for every field the portable record omits. -/
def deserialize_users (doc : List PortableUser) : List User :=
  doc.map (fun p =>
    { id := -1, email := p.email, first_name := p.first_name,
      last_name := p.last_name,
      common_name :=
        set_common_name (p.first_name ++ " " ++ p.last_name)
          p.first_name p.last_name,
      locale := none, is_superuser := none, is_active := p.is_active,
      is_qbnewb := none, ldap_auth := none, google_auth := none,
      login_attributes := [], group_ids := none, last_login := none,
      date_joined := none, updated_at := none })

/-- `serialize_groups`: dump each group minus `id` and `member_count`. -/
def serialize_groups (groups : List PermissionGroup) : List PortableGroup :=
  groups.map (fun g => { name := g.name })

/-- `deserialize_groups` (src/metabase/serde.py lines 70-71): sentinel
identity `-1`, `member_count` takes its pydantic default `0`. -/
def deserialize_groups (doc : List PortableGroup) : List PermissionGroup :=
  doc.map (fun p => { id := -1, name := p.name, member_count := some 0 })

/-- The tracked-field projection of a user used by the round-trip
comparison (natural key plus tracked fields). -/
def userTracked (u : User) : String × String × String × Option Bool :=
  (u.email, u.first_name, u.last_name, u.is_active)

/-- The tracked-field projection of a group. -/
def groupTracked (g : PermissionGroup) : String := g.name

/-- A Python dict comprehension `{k: v for k, v in pairs}` as a lookup:
a later binding for the same key overwrites an earlier one. -/
def lastWins (pairs : List (String × Int)) (k : String) : Option Int :=
  (pairs.reverse.find? (fun p => p.1 == k)).map (fun p => p.2)

/-- `users_lookup` of `deserialize_memberships` (src/metabase/serde.py
lines 104-106): email to id. -/
def users_lookup (users : List User) (email : String) : Option Int :=
  lastWins (users.map (fun u => (u.email, u.id))) email

/-- `groups_lookup` of `deserialize_memberships` (src/metabase/serde.py
lines 107-109): name to id. -/
def groups_lookup (groups : List PermissionGroup) (name : String) : Option Int :=
  lastWins (groups.map (fun g => (g.name, g.id))) name

/-- The `(group, member)` pairs enumerated by the comprehension on
src/metabase/serde.py lines 118-119, in evaluation order. -/
def memPairs (doc : List (String × List String)) : List (String × String) :=
  doc.flatMap (fun gm => gm.2.map (fun m => (gm.1, m)))

/-- One `PermissionMembership(membership_id=-1, user_id=..., group_id=...)`
construction; a missing lookup key raises `KeyError`. -/
def resolveMember (users : List User) (groups : List PermissionGroup)
    (g m : String) : Except String PermissionMembership :=
  match users_lookup users m, groups_lookup groups g with
  | some uid, some gid => .ok { id := -1, group_id := gid, user_id := uid }
  | none, _ => .error ("KeyError: " ++ m)
  | _, none => .error ("KeyError: " ++ g)

/-- Evaluate the membership comprehension left to right, raising at the
first unresolvable reference. -/
def resolveAll (users : List User) (groups : List PermissionGroup) :
    List (String × String) → Except String (List PermissionMembership)
  | [] => .ok []
  | p :: ps =>
    match resolveMember users groups p.1 p.2 with
    | .error e => .error e
    | .ok m =>
      match resolveAll users groups ps with
      | .error e => .error e
      | .ok ms => .ok (m :: ms)

/-- `deserialize_memberships` (src/metabase/serde.py lines 98-120) with the
YAML document given in memory as a group-name-to-member-emails map. -/
def deserialize_memberships (users : List User) (groups : List PermissionGroup)
    (doc : List (String × List String)) : Except String (List PermissionMembership) :=
  resolveAll users groups (memPairs doc)

/-- Bucket guard `elif not srv and yml` of `sync_users`. -/
def isAddedU (yml_users srv_users : List User) (k : String) : Bool :=
  (yml_users.find? (fun u => u.email == k)).isSome &&
    (srv_users.find? (fun u => u.email == k)).isNone

/-- Bucket guard `elif srv and not yml` of `sync_users`. -/
def isRemovedU (yml_users srv_users : List User) (k : String) : Bool :=
  (srv_users.find? (fun u => u.email == k)).isSome &&
    (yml_users.find? (fun u => u.email == k)).isNone

/-- Bucket guard `if srv and yml` with a non-empty tracked-field
difference. -/
def isModifiedU (yml_users srv_users : List User) (k : String) : Bool :=
  match yml_users.find? (fun u => u.email == k),
      srv_users.find? (fun u => u.email == k) with
  | some y, some s => userTrackedDiff y s
  | _, _ => false

/-- Key in both collections, tracked-field projections equal. -/
def isUnchangedU (yml_users srv_users : List User) (k : String) : Bool :=
  match yml_users.find? (fun u => u.email == k),
      srv_users.find? (fun u => u.email == k) with
  | some y, some s => !userTrackedDiff y s
  | _, _ => false

/-- The four user bucket flags for one key, in order
Added / Removed / Modified / Unchanged. -/
def userBucketFlags (yml_users srv_users : List User) (k : String) : List Bool :=
  [isAddedU yml_users srv_users k, isRemovedU yml_users srv_users k,
   isModifiedU yml_users srv_users k, isUnchangedU yml_users srv_users k]

/-- Group bucket guards: a protected key never reaches the loop body. -/
def isAddedG (yml_groups srv_groups : List PermissionGroup) (k : String) : Bool :=
  notProtected k && (yml_groups.find? (fun g => g.name == k)).isSome &&
    (srv_groups.find? (fun g => g.name == k)).isNone

/-- Group bucket guard: key only in the live collection. -/
def isRemovedG (yml_groups srv_groups : List PermissionGroup) (k : String) : Bool :=
  notProtected k && (srv_groups.find? (fun g => g.name == k)).isSome &&
    (yml_groups.find? (fun g => g.name == k)).isNone

/-- Group bucket guard: key in both, names differing (dead in practice
since the key is the name). -/
def isModifiedG (yml_groups srv_groups : List PermissionGroup) (k : String) : Bool :=
  notProtected k &&
    match yml_groups.find? (fun g => g.name == k),
        srv_groups.find? (fun g => g.name == k) with
    | some y, some s => groupTrackedDiff y s
    | _, _ => false

/-- Group bucket guard: key in both, tracked projections equal. -/
def isUnchangedG (yml_groups srv_groups : List PermissionGroup) (k : String) : Bool :=
  notProtected k &&
    match yml_groups.find? (fun g => g.name == k),
        srv_groups.find? (fun g => g.name == k) with
    | some y, some s => !groupTrackedDiff y s
    | _, _ => false

/-- The four group bucket flags for one key. -/
def groupBucketFlags (yml_groups srv_groups : List PermissionGroup) (k : String) :
    List Bool :=
  [isAddedG yml_groups srv_groups k, isRemovedG yml_groups srv_groups k,
   isModifiedG yml_groups srv_groups k, isUnchangedG yml_groups srv_groups k]

/-- Every step emitted by the `sync_groups` loop body for key `k` is a
printed classification of `k` itself. -/
theorem processGroupKey_classified {yml_groups srv_groups : List PermissionGroup}
    {k : String} {s : GStep} (h : s ∈ processGroupKey yml_groups srv_groups k) :
    ∃ b, s = GStep.classified k b := by
  unfold processGroupKey at h
  rcases hs : srv_groups.find? (fun g => g.name == k) with _ | srv <;>
    rcases hy : yml_groups.find? (fun g => g.name == k) with _ | yml <;>
    simp [hs, hy] at h
  · exact ⟨.added, h⟩
  · exact ⟨.removed, h⟩
  · rcases h with ⟨hd, h⟩
    exact ⟨.modified, h⟩

/-- C6: `sync_groups` issues no remote mutation whatsoever: every
observable step it performs is a printed classification, for every pair
of input collections. -/
theorem sync_groups_no_mutations (yml_groups srv_groups : List PermissionGroup) :
    (sync_groups yml_groups srv_groups).all gstepIsClassified = true := by
  rw [List.all_eq_true]
  intro s hs
  rw [sync_groups] at hs
  rcases List.mem_flatMap.mp hs with ⟨k, hk, hsk⟩
  rcases processGroupKey_classified hsk with ⟨b, rfl⟩
  rfl

/-- C5: a protected group name ("All Users" or "Administrators") never
appears in the output of `sync_groups`: no classification and no mutation
step refers to it, whatever the two collections contain. -/
theorem protected_groups_untouched (yml_groups srv_groups : List PermissionGroup)
    (name : String) (h : name ∈ protectedNames) :
    (sync_groups yml_groups srv_groups).all (fun s => gstepKey s != name) = true := by
  rw [List.all_eq_true]
  intro s hs
  rw [sync_groups] at hs
  rcases List.mem_flatMap.mp hs with ⟨k, hk, hsk⟩
  rcases processGroupKey_classified hsk with ⟨b, rfl⟩
  have hk2 := (List.mem_filter.mp hk).2
  simp only [protectedNames, List.mem_cons, List.not_mem_nil, or_false] at h
  rcases h with rfl | rfl <;>
  · simp only [gstepKey, bne_iff_ne, ne_eq]
    rintro rfl
    simp [notProtected] at hk2

/-- C5 witness: Scenario E, both sides contain "Administrators" with
differing attributes; the run touches nothing named "Administrators". -/
theorem protected_groups_untouched_witness :
    (sync_groups [⟨-1, "Administrators", some 0⟩] [⟨4, "Administrators", some 7⟩]).all
      (fun s => gstepKey s != "Administrators") = true :=
  protected_groups_untouched _ _ _ (by decide)

/-- C1 (failing run): a user key present only in the desired collection
reaches line 20 of sync.py with `srv = None`, so the run raises
`AttributeError` before any classification or create call: the executed
step list is empty and the error is recorded. -/
theorem sync_users_added_key_crashes :
    sync_users [mkUser (-1) "a@x.com" "Ada" "Lovelace" (some true)] [] =
      ([], some attrError) := by rfl

/-- C3 counterexample: in the reactivate branch no `continue` follows, so
the generic update call is also issued for the key — contradicting the
claim that no update call is issued. -/
theorem reactivate_also_updates_cx :
    UStep.mutate (UAction.update (mkUser 10 "d@x.com" "Dee" "Dev" (some true))) ∈
      (processUserKey [mkUser (-1) "d@x.com" "Dee" "Dev" (some true)]
        [mkUser 10 "d@x.com" "Dee" "Dev" (some false)] "d@x.com").toOption.getD [] := by
  decide

/-- C3 amended: for a key in both collections with desired
`is_active = true` and live `is_active = false`, the executed plan is one
reactivate on the live identity followed by one generic update with the
live identity merged onto the desired fields. -/
theorem reactivate_then_update (yml_users srv_users : List User) (key : String)
    (yml srv : User)
    (hs : srv_users.find? (fun u => u.email == key) = some srv)
    (hy : yml_users.find? (fun u => u.email == key) = some yml)
    (ha : yml.is_active = some true) (hsa : srv.is_active = some false) :
    processUserKey yml_users srv_users key =
      .ok [.classified key .modified, .mutate (.reactivate srv),
           .mutate (.update { yml with id := srv.id })] := by
  simp [processUserKey, hs, hy, userTrackedDiff, ha, hsa, truthy]

/-- C3 witness: Scenario D instantiated. -/
theorem reactivate_then_update_witness :
    processUserKey [mkUser (-1) "d@x.com" "Dee" "Dev" (some true)]
        [mkUser 10 "d@x.com" "Dee" "Dev" (some false)] "d@x.com" =
      .ok [.classified "d@x.com" .modified,
           .mutate (.reactivate (mkUser 10 "d@x.com" "Dee" "Dev" (some false))),
           .mutate (.update (mkUser 10 "d@x.com" "Dee" "Dev" (some true)))] :=
  reactivate_then_update [mkUser (-1) "d@x.com" "Dee" "Dev" (some true)]
    [mkUser 10 "d@x.com" "Dee" "Dev" (some false)] "d@x.com"
    (mkUser (-1) "d@x.com" "Dee" "Dev" (some true))
    (mkUser 10 "d@x.com" "Dee" "Dev" (some false))
    (by decide) (by decide) rfl rfl

/-- C4: for a key in both collections with desired `is_active = false`
and live `is_active = true`, the executed plan is exactly one delete of
the live identity; the `continue` skips the update. -/
theorem deactivation_supersedes_update (yml_users srv_users : List User) (key : String)
    (yml srv : User)
    (hs : srv_users.find? (fun u => u.email == key) = some srv)
    (hy : yml_users.find? (fun u => u.email == key) = some yml)
    (ha : yml.is_active = some false) (hsa : srv.is_active = some true) :
    processUserKey yml_users srv_users key =
      .ok [.classified key .modified, .mutate (.delete srv)] := by
  simp [processUserKey, hs, hy, userTrackedDiff, ha, hsa, truthy]

/-- C4 witness: Scenario C instantiated. -/
theorem deactivation_supersedes_update_witness :
    processUserKey [mkUser (-1) "c@x.com" "Cee" "Dev" (some false)]
        [mkUser 11 "c@x.com" "Cee" "Dev" (some true)] "c@x.com" =
      .ok [.classified "c@x.com" .modified,
           .mutate (.delete (mkUser 11 "c@x.com" "Cee" "Dev" (some true)))] :=
  deactivation_supersedes_update [mkUser (-1) "c@x.com" "Cee" "Dev" (some false)]
    [mkUser 11 "c@x.com" "Cee" "Dev" (some true)] "c@x.com"
    (mkUser (-1) "c@x.com" "Cee" "Dev" (some false))
    (mkUser 11 "c@x.com" "Cee" "Dev" (some true))
    (by decide) (by decide) rfl rfl

/-- C10: a desired user whose `is_active` is `None` (field omitted from
the portable document) is falsy in the truthiness tests, so against a
live active user the executed plan is one delete and no update. -/
theorem none_is_active_deactivates (yml_users srv_users : List User) (key : String)
    (yml srv : User)
    (hs : srv_users.find? (fun u => u.email == key) = some srv)
    (hy : yml_users.find? (fun u => u.email == key) = some yml)
    (ha : yml.is_active = none) (hsa : srv.is_active = some true) :
    processUserKey yml_users srv_users key =
      .ok [.classified key .modified, .mutate (.delete srv)] := by
  simp [processUserKey, hs, hy, userTrackedDiff, ha, hsa, truthy]

/-- C10 witness. -/
theorem none_is_active_deactivates_witness :
    processUserKey [mkUser (-1) "n@x.com" "Nil" "Act" none]
        [mkUser 12 "n@x.com" "Nil" "Act" (some true)] "n@x.com" =
      .ok [.classified "n@x.com" .modified,
           .mutate (.delete (mkUser 12 "n@x.com" "Nil" "Act" (some true)))] :=
  none_is_active_deactivates [mkUser (-1) "n@x.com" "Nil" "Act" none]
    [mkUser 12 "n@x.com" "Nil" "Act" (some true)] "n@x.com"
    (mkUser (-1) "n@x.com" "Nil" "Act" none)
    (mkUser 12 "n@x.com" "Nil" "Act" (some true))
    (by decide) (by decide) rfl rfl

/-- C2 counterexample: the live user collection contains two users with
the same email, yet `deserialize_memberships` succeeds (no error of any
kind is raised; the source contains no ResolutionError): the lookup map
silently resolves the email to the last user with that email. -/
theorem duplicate_email_no_error_cx :
    deserialize_memberships
      [mkUser 1 "a@x.com" "A" "One" (some true),
       mkUser 2 "a@x.com" "A" "Two" (some true)]
      [⟨3, "G", some 0⟩] [("G", ["a@x.com"])] =
      .ok [{ id := -1, group_id := 3, user_id := 2 }] := by rfl

/-- C2 amended: with a duplicated natural key in the live collection the
dict-comprehension lookup keeps the last binding, so decoding succeeds
and resolves the shared email to the id of the last duplicate. -/
theorem duplicate_email_last_wins (u1 u2 : User) (g : PermissionGroup)
    (h : u2.email = u1.email) :
    deserialize_memberships [u1, u2] [g] [(g.name, [u1.email])] =
      .ok [{ id := -1, group_id := g.id, user_id := u2.id }] := by
  simp [deserialize_memberships, memPairs, resolveAll, resolveMember,
        users_lookup, groups_lookup, lastWins, h]

/-- C2 witness for the amended claim. -/
theorem duplicate_email_last_wins_witness :
    deserialize_memberships
      [mkUser 1 "a@x.com" "A" "One" (some true),
       mkUser 2 "a@x.com" "A" "Two" (some true)]
      [⟨3, "G", some 0⟩] [("G", ["a@x.com"])] =
      .ok [{ id := -1, group_id := 3, user_id := 2 }] :=
  duplicate_email_last_wins (mkUser 1 "a@x.com" "A" "One" (some true))
    (mkUser 2 "a@x.com" "A" "Two" (some true)) ⟨3, "G", some 0⟩ (by decide)

/-- C8: decoding the document produced by encoding is the identity on
the natural key and the tracked fields (users: email, first_name,
last_name, is_active; groups: name); identity and volatile fields are
outside the comparison. -/
theorem serde_round_trip (us : List User) (gs : List PermissionGroup) :
    (deserialize_users (serialize_users us)).map userTracked = us.map userTracked ∧
    (deserialize_groups (serialize_groups gs)).map groupTracked = gs.map groupTracked := by
  constructor
  · simp [deserialize_users, serialize_users, userTracked]
  · simp [deserialize_groups, serialize_groups, groupTracked]

/-- Resolving the comprehension succeeds and maps each `(group, member)`
pair through the two lookups when every reference resolves. -/
theorem resolveAll_ok (users : List User) (groups : List PermissionGroup) :
    ∀ ps : List (String × String),
      (∀ p ∈ ps, (users_lookup users p.2).isSome ∧ (groups_lookup groups p.1).isSome) →
      resolveAll users groups ps =
        .ok (ps.map fun p =>
          { id := -1, group_id := (groups_lookup groups p.1).getD 0,
            user_id := (users_lookup users p.2).getD 0 })
  | [], _ => rfl
  | p :: ps, h => by
    have hp := h p (List.mem_cons_self p ps)
    rcases hu : users_lookup users p.2 with _ | uid
    · rw [hu] at hp; simp at hp
    · rcases hg : groups_lookup groups p.1 with _ | gid
      · rw [hg] at hp; simp at hp
      · have ih := resolveAll_ok users groups ps
          (fun q hq => h q (List.mem_cons_of_mem p hq))
        simp [resolveAll, resolveMember, hu, hg, ih]

/-- C9: when the resolver maps send every referenced email and group name
to an identity, `deserialize_memberships` returns one membership per
`(group, member)` entry, with the sentinel identity `-1`, the resolved
user id and the resolved group id. -/
theorem memberships_decode_resolved (users : List User) (groups : List PermissionGroup)
    (doc : List (String × List String))
    (h : ∀ p ∈ memPairs doc,
      (users_lookup users p.2).isSome ∧ (groups_lookup groups p.1).isSome) :
    deserialize_memberships users groups doc =
      .ok ((memPairs doc).map fun p =>
        { id := -1, group_id := (groups_lookup groups p.1).getD 0,
          user_id := (users_lookup users p.2).getD 0 }) :=
  resolveAll_ok users groups (memPairs doc) h

/-- C9 witness: Scenario F. -/
theorem memberships_decode_resolved_witness :
    deserialize_memberships [mkUser 7 "u1@x.com" "U" "One" (some true)]
      [⟨3, "G1", some 0⟩] [("G1", ["u1@x.com"])] =
      .ok [{ id := -1, group_id := 3, user_id := 7 }] :=
  memberships_decode_resolved [mkUser 7 "u1@x.com" "U" "One" (some true)]
    [⟨3, "G1", some 0⟩] [("G1", ["u1@x.com"])] (by decide)

/-- C7 counterexample: with unique keys on both sides, the group key
"Administrators" lies in the union of the two collections' key sets yet
falls into none of the four buckets of `sync_groups` (it is filtered out
before classification), so the buckets do not partition the union. -/
theorem partition_misses_protected_cx :
    (([(⟨-1, "Administrators", some 0⟩ : PermissionGroup)].map
        PermissionGroup.name).Nodup) ∧
    ((([] : List PermissionGroup).map PermissionGroup.name).Nodup) ∧
    ("Administrators" ∈ groupKeys [⟨-1, "Administrators", some 0⟩] []) ∧
    (groupBucketFlags [⟨-1, "Administrators", some 0⟩] [] "Administrators").count true = 0 := by
  decide

/-- C7 amended: for users the four buckets partition the whole union of
keys (each key in exactly one bucket); for groups the same holds for
every key of the union that is not a protected name. -/
theorem buckets_partition_union :
    (∀ (yml_users srv_users : List User) (k : String),
      (yml_users.map User.email).Nodup → (srv_users.map User.email).Nodup →
      k ∈ userKeys yml_users srv_users →
      (userBucketFlags yml_users srv_users k).count true = 1) ∧
    (∀ (yml_groups srv_groups : List PermissionGroup) (k : String),
      (yml_groups.map PermissionGroup.name).Nodup →
      (srv_groups.map PermissionGroup.name).Nodup →
      k ∈ groupKeys yml_groups srv_groups → notProtected k = true →
      (groupBucketFlags yml_groups srv_groups k).count true = 1) := by
  constructor
  · intro yml srv k _ _ hk
    have hk2 : ∃ u ∈ yml ++ srv, u.email = k := by
      rcases List.mem_map.mp (List.mem_dedup.mp hk) with ⟨u, hu, he⟩
      exact ⟨u, hu, he⟩
    rcases hy : yml.find? (fun u => u.email == k) with _ | y <;>
      rcases hs : srv.find? (fun u => u.email == k) with _ | s
    · rcases hk2 with ⟨u, hu, he⟩
      rcases List.mem_append.mp hu with h | h
      · have := List.find?_eq_none.mp hy u h
        simp [he] at this
      · have := List.find?_eq_none.mp hs u h
        simp [he] at this
    · simp [userBucketFlags, isAddedU, isRemovedU, isModifiedU, isUnchangedU, hy, hs]
    · simp [userBucketFlags, isAddedU, isRemovedU, isModifiedU, isUnchangedU, hy, hs]
    · simp only [userBucketFlags, isAddedU, isRemovedU, isModifiedU, isUnchangedU, hy, hs]
      cases userTrackedDiff y s <;> simp [List.count_cons, List.count_nil]
  · intro yml srv k _ _ hk hp
    have hk2 : ∃ g ∈ yml ++ srv, g.name = k := by
      rcases List.mem_map.mp (List.mem_dedup.mp hk) with ⟨g, hg, he⟩
      exact ⟨g, hg, he⟩
    rcases hy : yml.find? (fun g => g.name == k) with _ | y <;>
      rcases hs : srv.find? (fun g => g.name == k) with _ | s
    · rcases hk2 with ⟨g, hg, he⟩
      rcases List.mem_append.mp hg with h | h
      · have := List.find?_eq_none.mp hy g h
        simp [he] at this
      · have := List.find?_eq_none.mp hs g h
        simp [he] at this
    · simp [groupBucketFlags, isAddedG, isRemovedG, isModifiedG, isUnchangedG, hy, hs, hp]
    · simp [groupBucketFlags, isAddedG, isRemovedG, isModifiedG, isUnchangedG, hy, hs, hp]
    · simp only [groupBucketFlags, isAddedG, isRemovedG, isModifiedG, isUnchangedG, hy, hs, hp]
      cases groupTrackedDiff y s <;> simp [List.count_cons, List.count_nil]

/-- C7 witness for the amended claim: one concrete user key and one
concrete non-protected group key, each in exactly one bucket. -/
theorem buckets_partition_union_witness :
    (userBucketFlags [mkUser (-1) "a@x.com" "A" "B" (some true)] [] "a@x.com").count true = 1 ∧
    (groupBucketFlags [⟨-1, "G", some 0⟩] [] "G").count true = 1 :=
  ⟨buckets_partition_union.1 [mkUser (-1) "a@x.com" "A" "B" (some true)] [] "a@x.com"
      (by decide) (by decide) (by decide),
   buckets_partition_union.2 [⟨-1, "G", some 0⟩] [] "G"
      (by decide) (by decide) (by decide) (by decide)⟩
